import Mathlib

/-!
Verification development for the SAIJ jurisprudence scraper
(`src/scrapper.py`).  The definitions below are a shallow embedding of the
crawl controller: the JSON data model, the schema normalizer
(`enforce_schema`), the persisted-log loaders, the rate limiter
(`RateLimiter` / `AdaptiveRateLimiter`), the `retry` decorator, the two
discovery loops and the collection loop of `main`.

Conventions of the embedding:
* Python `dict`s are association lists keeping insertion order; key update
  replaces the first matching entry in place, a fresh key is appended
  (matching CPython dict semantics as far as `json.dump` output order and
  lookups are concerned).
* A Python function that can raise is embedded as `Except Unit α` (the
  `.error` value standing for the propagated exception); a function
  returning `Optional[T]` becomes `Option α`.
* `datetime` values and float parameters are embedded as rationals; float
  doubling, `min`/`max` and the comparisons used by the code are exact on
  the values involved.
-/

/-- JSON-like values, the shape of everything `json.loads` can return. -/
inductive Json where
  | null
  | bool (b : Bool)
  | num (n : Int)
  | str (s : String)
  | arr (elems : List Json)
  | obj (fields : List (String × Json))
deriving Inhabited

/-- `isinstance(v, dict)`. -/
def Json.isDict : Json → Bool
  | .obj _ => true
  | _ => false

/-- `isinstance(v, list)`. -/
def Json.isList : Json → Bool
  | .arr _ => true
  | _ => false

/-- Lookup of a key in a dict (`d[k]` / `k in d` support).  On non-dicts the
lookup is `none`; Python key membership on a non-dict is likewise falsy for
the values this development exercises. -/
def Json.lookup : Json → String → Option Json
  | .obj fields, k => fields.lookup k
  | _, _ => none

/-- `k in d` for a dict. -/
def Json.hasKey (j : Json) (k : String) : Bool :=
  (j.lookup k).isSome

/-- `d.get(k, default)`. -/
def Json.getD (j : Json) (k : String) (d : Json) : Json :=
  (j.lookup k).getD d

/-- Helper for `Json.setKey`: update the first occurrence of the key in
place, append the pair when the key is fresh (CPython dict update order). -/
def setFields : List (String × Json) → String → Json → List (String × Json)
  | [], k, v => [(k, v)]
  | (k', v') :: rest, k, v =>
    if k' = k then (k, v) :: rest else (k', v') :: setFields rest k v

/-- `d[k] = v` on a dict.  Item assignment on a non-dict would raise in
Python; the embedding never applies it to a non-dict (see the lemmas
establishing dict-ness of `enforce_schema` results). -/
def Json.setKey : Json → String → Json → Json
  | .obj fields, k, v => .obj (setFields fields k v)
  | j, _, _ => j

/-- Python truthiness of a JSON-like value (`if content and ...`). -/
def Json.isTruthy : Json → Bool
  | .null => false
  | .bool b => b
  | .num n => n != 0
  | .str s => s ≠ ""
  | .arr l => !l.isEmpty
  | .obj f => !f.isEmpty

/-- Characters after the last `'/'` of the list (the whole list when no
`'/'` occurs). -/
def lastSegAux : List Char → List Char → List Char
  | [], acc => acc
  | c :: rest, acc =>
    if c = '/' then lastSegAux rest [] else lastSegAux rest (acc ++ [c])

/-- `url.split("/")[-1]` — the trailing path segment used as the guid:
the suffix of `url` after its last `'/'` (the whole string when `url`
contains no `'/'`), which is exactly the last element of
`url.split("/")`. -/
def lastSeg (url : String) : String :=
  ⟨lastSegAux url.data []⟩

/-- The module-level `correct_schema` constant (scrapper.py lines 177-196). -/
def correct_schema : Json :=
  .obj [("descriptores", .obj [
    ("descriptor", .arr [.obj [
      ("elegido", .obj [("termino", .str "Término elegido para describir al caso")]),
      ("preferido", .obj [("termino", .str "Término preferido para describir al caso")]),
      ("sinonimos", .obj [("termino", .arr [.str "Lista de sinónimos"])])]]),
    ("suggest", .obj [("termino", .arr [.str "Lista de términos sugeridos"])])])]

/-- The per-descriptor `sinonimos` repair step of `enforce_schema`
(lines 218-221).  `.error` is the `KeyError` raised by
`d['sinonimos']['termino']` when `sinonimos` is a dict without a
`termino` key. -/
def fixDescriptor (d : Json) : Except Unit Json :=
  let d1 := if !d.hasKey "sinonimos" || !(d.getD "sinonimos" .null).isDict
    then d.setKey "sinonimos" (.obj [("termino", .arr [])]) else d
  let sin := d1.getD "sinonimos" .null
  if !sin.hasKey "termino" then .error ()
  else
    let t := sin.getD "termino" .null
    if t.isList then .ok d1
    else .ok (d1.setKey "sinonimos" (sin.setKey "termino" (.arr [t])))

/-- The `for d in descriptor` loop of `enforce_schema` (lines 211-221).
`.ok none` means the loop hit a malformed `elegido`/`preferido` and the
whole call returns `correct_schema`; `.error` propagates the `KeyError`
from `fixDescriptor`. -/
def fixDescriptors : List Json → Except Unit (Option (List Json))
  | [] => .ok (some [])
  | d :: ds =>
    if !(d.hasKey "elegido" && (d.getD "elegido" .null).isDict) then .ok none
    else if !(d.hasKey "preferido" && (d.getD "preferido" .null).isDict) then .ok none
    else
      match fixDescriptor d with
      | .error e => .error e
      | .ok d' =>
        match fixDescriptors ds with
        | .error e => .error e
        | .ok none => .ok none
        | .ok (some ds') => .ok (some (d' :: ds'))

/-- `enforce_schema` (scrapper.py lines 198-230), embedded with Python's
aliasing semantics made explicit: `data.get('descriptores', {})` (and the
nested `.get` defaults) return *detached* fresh dicts when the key is
absent, so in-place repairs on them are lost unless the key chain is
actually present — the write-back `setKey` steps below apply exactly when
the corresponding key exists.  `.error` is the propagated `KeyError` of
line 220. -/
def enforce_schema (data : Json) : Except Unit Json :=
  if !data.isDict then .ok correct_schema
  else
    let descriptores := data.getD "descriptores" (.obj [])
    if !descriptores.isDict then .ok correct_schema
    else
      let descriptor := descriptores.getD "descriptor" (.arr [])
      match descriptor with
      | .arr ds =>
        if !ds.all Json.isDict then .ok correct_schema
        else
          match fixDescriptors ds with
          | .error e => .error e
          | .ok none => .ok correct_schema
          | .ok (some ds') =>
            let descriptores1 := if descriptores.hasKey "descriptor"
              then descriptores.setKey "descriptor" (.arr ds') else descriptores
            let suggest := descriptores1.getD "suggest" (.obj [])
            if !suggest.isDict then .ok correct_schema
            else
              let suggest' := if !suggest.hasKey "termino" || !(suggest.getD "termino" .null).isList
                then suggest.setKey "termino" (.arr []) else suggest
              let descriptores2 := if descriptores1.hasKey "suggest"
                then descriptores1.setKey "suggest" suggest' else descriptores1
              .ok (if data.hasKey "descriptores"
                then data.setKey "descriptores" descriptores2 else data)
      | _ => .ok correct_schema

/-- `validate_data` (lines 261-264): the only required field is `guid`. -/
def validate_data (content : Json) : Bool :=
  content.hasKey "guid"

/-- `AdaptiveRateLimiter` state (scrapper.py lines 16-37).  `RateLimiter`
constructs it with the defaults `initial_delay=0.1`, `max_delay=5.0`,
`backoff_factor=1.5`. -/
structure AdaptiveState where
  delay : ℚ
  max_delay : ℚ
  backoff_factor : ℚ
  success_streak : Nat
  failure_streak : Nat
deriving DecidableEq

/-- `AdaptiveRateLimiter()` with its default parameters. -/
def AdaptiveState.initial : AdaptiveState :=
  { delay := 1/10, max_delay := 5, backoff_factor := 3/2
    success_streak := 0, failure_streak := 0 }

/-- `AdaptiveRateLimiter.success` (lines 27-32). -/
def AdaptiveState.success (a : AdaptiveState) : AdaptiveState :=
  let ss := a.success_streak + 1
  if ss ≥ 10 then
    { a with delay := max (a.delay / a.backoff_factor) (1/10)
             success_streak := 0, failure_streak := 0 }
  else
    { a with success_streak := ss, failure_streak := 0 }

/-- `AdaptiveRateLimiter.failure` (lines 34-37). -/
def AdaptiveState.failure (a : AdaptiveState) : AdaptiveState :=
  { a with failure_streak := a.failure_streak + 1, success_streak := 0
           delay := min (a.delay * a.backoff_factor) a.max_delay }

/-- `RateLimiter` state (lines 39-48).  Timestamps are rationals standing
for `datetime` instants. -/
structure RLState where
  calls : Nat
  period : ℚ
  backoff_factor : ℚ
  jitter : ℚ
  timestamps : List ℚ
  successful_requests : Nat
  error_count : Nat
  adaptive : AdaptiveState
deriving DecidableEq

/-- `RateLimiter(calls, period)` with the remaining defaults of
`__init__` (lines 40-48). -/
def RLState.init (calls : Nat) (period : ℚ) : RLState :=
  { calls := calls, period := period, backoff_factor := 7/5, jitter := 1
    timestamps := [], successful_requests := 0, error_count := 0
    adaptive := AdaptiveState.initial }

/-- The `while True` loop body of `RateLimiter.wait` (lines 53-70) at a
fixed instant `now` (the code reads `datetime.now()` once, before the
loop).  Returns the updated `(timestamps, successful_requests, calls)` on
acquisition.  `none` models the two non-returning behaviours: the sleep
branch loops forever (nothing it changes can make either other branch
true, since `now` and the window are fixed there), and `timestamps[0]`
on an empty list raises `IndexError` (only reachable when `calls = 0`). -/
def acquire (now period : ℚ) (calls : Nat) :
    List ℚ → Nat → Option (List ℚ × Nat × Nat)
  | ts, sr =>
    if ts.length < calls then
      let sr' := sr + 1
      if sr' ≥ 11 then some (ts ++ [now], 0, calls + 1)
      else some (ts ++ [now], sr', calls)
    else
      match ts with
      | [] => none
      | t :: rest =>
        if now - t > period then acquire now period calls rest (sr + 1)
        else none

/-- `RateLimiter.wait` (lines 50-70) at instant `now`; `none` models the
non-terminating (or `IndexError`) executions. -/
def RLState.wait (now : ℚ) (s : RLState) : Option RLState :=
  match acquire now s.period s.calls s.timestamps s.successful_requests with
  | none => none
  | some (ts', sr', calls') =>
    some { s with timestamps := ts', successful_requests := sr'
                  calls := calls', adaptive := s.adaptive.success }

/-- `RateLimiter.reset_on_error` (lines 72-80). -/
def RLState.reset_on_error (s : RLState) : RLState :=
  let calls1 := max 1 (s.calls - 1)
  let ec := s.error_count + 1
  let base := { s with backoff_factor := s.backoff_factor * 2
                       successful_requests := 0
                       adaptive := s.adaptive.failure }
  if ec ≥ 5 then { base with calls := max 1 (calls1 - 1), error_count := 0 }
  else { base with calls := calls1, error_count := ec }

/-- An interaction with the rate limiter: a (terminating) `wait` at some
instant, or a `reset_on_error` failure report. -/
inductive RLOp where
  | wait (now : ℚ)
  | reset
deriving DecidableEq

/-- Run a sequence of rate-limiter interactions; `none` when a `wait`
diverges. -/
def runOps (s : RLState) : List RLOp → Option RLState
  | [] => some s
  | .wait now :: rest =>
    match s.wait now with
    | none => none
    | some s' => runOps s' rest
  | .reset :: rest => runOps s.reset_on_error rest

/-- Number of recorded timestamps lying within the trailing `period`
before the instant `now`. -/
def inWindowCount (now : ℚ) (s : RLState) : Nat :=
  (s.timestamps.filter (fun t => now - t ≤ s.period)).length

/-- The first sleep duration computed by the backoff branch of
`RateLimiter.wait` (line 67): `period * backoff_factor ** backoff + j`
with the local `backoff` still at its initial value `1` and
`j ∈ [-jitter, jitter]` the sampled perturbation. -/
def first_jitter_delay (s : RLState) (j : ℚ) : ℚ :=
  s.period * s.backoff_factor + j

/-- `reset_on_error` iterated `n` times. -/
def resetIter : Nat → RLState → RLState
  | 0, s => s
  | n + 1, s => resetIter n s.reset_on_error

/-- Rate-controller interaction events observed during a fetch.
`success` is the bookkeeping `RateLimiter.wait` performs when it grants a
slot (lines 55-61: timestamp recorded, `successful_requests` bumped,
`adaptive_limiter.success()`); `failure` is a `reset_on_error()` call. -/
inductive SEvent where
  | success
  | failure
deriving DecidableEq, Repr

/-- Outcome of one attempt of a `@retry`-wrapped coroutine: a returned
value, or a raised exception. -/
inductive AOut (α : Type) where
  | val (a : α)
  | raise
deriving DecidableEq

/-- Outcome of the whole `retry` wrapper: a returned value, the exception
re-raised on the last attempt, or the `None` a Python decorator returns
when `range(max_retries)` is empty. -/
inductive RetryRes (α : Type) where
  | value (a : α)
  | raised
  | fellThrough
deriving DecidableEq

/-- The `retry` decorator loop (scrapper.py lines 82-95), run from attempt
index `i` with the given number of attempts remaining.  `step` maps an
attempt index to the events that attempt emits and its outcome; event
lists concatenate in attempt order. -/
def retryFrom (step : Nat → List SEvent × AOut α) (i : Nat) :
    Nat → List SEvent × RetryRes α
  | 0 => ([], .fellThrough)
  | n + 1 =>
    match step i with
    | (es, .val a) => (es, .value a)
    | (es, .raise) =>
      if n = 0 then (es, .raised)
      else
        let r := retryFrom step (i + 1) n
        (es ++ r.1, r.2)

/-- `retry(max_retries)` applied to an operation: attempts `0` to
`max_retries - 1`. -/
def retryRun (step : Nat → List SEvent × AOut α) (maxRetries : Nat) :
    List SEvent × RetryRes α :=
  retryFrom step 0 maxRetries

/-- One discovery-endpoint response as `get_urls` discriminates them.
`ok items` is an HTTP 200 whose JSON body is a dict; each element of
`items` is the parse outcome of one `documentResultList` entry
(`some (friendly_url_description, uuid)`, or `none` when parsing that
entry fails with `json.JSONDecodeError`/`KeyError` and the entry is
skipped, lines 120-128).  A 200 body missing `searchResults` or
`documentResultList` is `ok []`. -/
inductive GResp where
  | ok (items : List (Option (String × String)))
  | endOfResults
  | httpError (code : Nat)
  | notDict
  | netError
  | decodeError
  | genericError
deriving DecidableEq

/-- Lines 119-130: build `f"{friendly_url}/{uuid}"` for each successfully
parsed entry, skipping malformed ones. -/
def parseItems (items : List (Option (String × String))) : List String :=
  items.filterMap (fun it => it.map (fun p => p.1 ++ "/" ++ p.2))

/-- `get_urls` (scrapper.py lines 97-142) on one response: the emitted
rate-controller events and the returned value.  HTTP 500 returns `[]` at
once (line 103-105); other non-200 statuses, transport errors, body-decode
failures and unexpected errors call `reset_on_error()` and return `None`;
a non-dict 200 body returns `None` *without* a failure report
(lines 112-114).  Every path returns — `get_urls` catches all its
exceptions — so the `@retry(max_retries=3)` wrapper never sees a raise. -/
def get_urls : GResp → List SEvent × Option (List String)
  | .ok items => ([.success], some (parseItems items))
  | .endOfResults => ([.success], some [])
  | .httpError _ => ([.success, .failure], none)
  | .notDict => ([.success], none)
  | .netError => ([.success, .failure], none)
  | .decodeError => ([.success, .failure], none)
  | .genericError => ([.success, .failure], none)

/-- `@retry(max_retries=3)` around `get_urls`, with `resps i` the response
the endpoint would give to attempt `i`. -/
def retryGetUrls (resps : Nat → GResp) (maxRetries : Nat) :
    List SEvent × RetryRes (Option (List String)) :=
  retryRun (fun i => ((get_urls (resps i)).1, .val (get_urls (resps i)).2)) maxRetries

/-- One document-endpoint response as `scrape_data` discriminates them.
`ok raw` is an HTTP 200; `raw = some content` is the successfully decoded
`json.loads(data['data'])['document']['content']`, `raw = none` stands
for any decode/`KeyError` failure on that chain (which raises). -/
inductive SResp where
  | ok (raw : Option Json)
  | http403
  | httpError (code : Nat)
  | netError
  | decodeError

/-- One attempt of `scrape_data` (scrapper.py lines 144-175) for `url`:
the rate-controller events emitted and the attempt outcome.  A 403 calls
`reset_on_error()` on the status branch (line 153) and raises
`aiohttp.ClientError` from *inside* the `try`, so the `ClientError`
handler (lines 164-167) catches it, calls `reset_on_error()` a second
time, and re-raises: a 403 attempt reports two failures.  Another
non-200 status calls `reset_on_error()` once and returns `None` (a
`return` is not caught, and it ends the retry loop); a transport error
raised by the request itself, a decode failure, and a
schema-normalization (`enforce_schema` `KeyError`) failure each reach
exactly one handler, reporting one failure before the re-raise; on
success the guid — the trailing segment of `url` — is injected into the
normalized content. -/
def scrapeStep (url : String) (r : SResp) : List SEvent × AOut (Option Json) :=
  match r with
  | .http403 => ([.success, .failure, .failure], .raise)
  | .httpError _ => ([.success, .failure], .val none)
  | .netError => ([.success, .failure], .raise)
  | .decodeError => ([.success, .failure], .raise)
  | .ok none => ([.success, .failure], .raise)
  | .ok (some raw) =>
    match enforce_schema raw with
    | .error _ => ([.success, .failure], .raise)
    | .ok c => ([.success], .val (some (c.setKey "guid" (.str (lastSeg url)))))

/-- `@retry(max_retries=10)` around `scrape_data` for one url, with
`resps i` the response to attempt `i`. -/
def retryScrape (url : String) (resps : Nat → SResp) (maxRetries : Nat) :
    List SEvent × RetryRes (Option Json) :=
  retryRun (fun i => scrapeStep url (resps i)) maxRetries

/-- The inner `while True` offset loop of full-backfill discovery
(scrapper.py lines 298-307) for one year.  `resps o` is the discovery
response at offset `o`; the loop breaks on `if not urls:`, i.e. both on an
empty page (`[]`, the HTTP-500 sentinel) *and* on an error (`None`).
Pages whose identifiers are all known still continue the loop.  `fuel`
bounds the number of iterations modelled (the code loop has no other
bound); collected URLs are listed in page order, each page filtered
against the known-URL set. -/
def backfill_year (resps : Nat → GResp) (amount : Nat) (existing : List String) :
    Nat → Nat → List String
  | 0, _ => []
  | fuel + 1, offset =>
    match (get_urls (resps offset)).2 with
    | none => []
    | some [] => []
    | some (u :: us) =>
      ((u :: us).filter (fun x => decide (x ∉ existing)))
        ++ backfill_year resps amount existing fuel (offset + amount)

/-- The outer `for year in range(1799, ...)` loop of full-backfill
discovery (lines 296-307): each year runs its offset loop from `offset = 0`
and the enumeration then continues with the next year, whatever ended the
inner loop. -/
def backfill_years (resps : Nat → Nat → GResp) (amount : Nat)
    (existing : List String) (fuel : Nat) : List Nat → List String
  | [] => []
  | y :: ys =>
    backfill_year (resps y) amount existing fuel 0
      ++ backfill_years resps amount existing fuel ys

/-- Incremental-update discovery (scrapper.py lines 281-293).  The list
holds the successive `get_urls` results at offsets `0, amount, 2·amount, …`
of the current year (the only year this mode ever queries); `none` is a
`None` return, on which `set(urls)` raises `TypeError` and the run dies
(`.error`).  The loop breaks — ending the entire enumeration — exactly
when a page contributes no identifier outside the known-URL set; earlier
pages contribute all their unknown identifiers. -/
def update_mode_collect (existing : List String) :
    List (Option (List String)) → Except Unit (List String)
  | [] => .ok []
  | none :: _ => .error ()
  | some urls :: rest =>
    let newU := urls.filter (fun u => decide (u ∉ existing))
    if newU.isEmpty then .ok []
    else (update_mode_collect existing rest).map (fun L => newU ++ L)

/-- Per-url outcome of the `@retry(max_retries=10)`-wrapped `scrape_data`
as the collection loop of `main` observes it: a returned normalized
content (`ok raw` is the decoded upstream content before guid injection),
a returned `None` (non-200/non-403 status), or an exception propagated
after the retry budget — which aborts `main`. -/
inductive FetchOut where
  | ok (raw : Json)
  | failed
  | aborts

/-- The collection loop of `main` (scrapper.py lines 331-348), returning
the `(url, record)` pairs appended to the dataset file in order.  The
known-guid set `existing` is loaded once before the loop and never updated
by it.  A guid already in `existing` is skipped (non-update mode) or stops
the whole loop (update mode).  A fetched content has the guid injected by
`scrape_data`; it is persisted when it is truthy and passes
`validate_data`.  An aborting fetch (propagated exception, including an
`enforce_schema` `KeyError` surviving all retries) ends the run. -/
def collect_records (update : Bool) (fetch : String → FetchOut)
    (existing : List String) : List String → List (String × Json)
  | [] => []
  | url :: rest =>
    let guid := lastSeg url
    if guid ∈ existing then
      if update then [] else collect_records update fetch existing rest
    else
      match fetch url with
      | .ok raw =>
        match enforce_schema raw with
        | .error _ => []
        | .ok c =>
          let c2 := c.setKey "guid" (.str guid)
          if c2.isTruthy && validate_data c2 then
            (url, c2) :: collect_records update fetch existing rest
          else collect_records update fetch existing rest
      | .failed => collect_records update fetch existing rest
      | .aborts => []

/-- Truthiness of `line.strip()`: the line contains a non-whitespace
character. -/
def stripTruthy (s : String) : Bool :=
  s.data.any (fun c => !c.isWhitespace)

/-- `load_existing_data` (scrapper.py lines 232-247) in its dataset branch
(`key ≠ 'url'`).  Each log line is given with the outcome of
`json.loads` on it (`none` = the parse raises `json.JSONDecodeError`).
The `try` wraps the *whole* set comprehension, so the first malformed
non-blank line aborts it; the handler only logs, and `existing_data`
keeps its initial value — the empty set.  Blank lines are skipped before
parsing and cannot abort. -/
def load_existing_data (lines : List (String × Option Json)) (key : String) :
    List Json :=
  if lines.any (fun l => stripTruthy l.1 && l.2.isNone) then []
  else
    lines.filterMap (fun l =>
      if stripTruthy l.1 then
        l.2.bind (fun j => if j.hasKey key then some (j.getD key .null) else none)
      else none)

/-- Helper for `load_existing_data_reverse`: the `for line in
reversed(list(f))` loop body, with no exception handling — a parse
failure or a missing key raises out of the whole load. -/
def loadReverseGo (key : String) : List (String × Option Json) → Except Unit (List Json)
  | [] => .ok []
  | l :: rest =>
    match l.2 with
    | none => .error ()
    | some j =>
      if j.hasKey key then (loadReverseGo key rest).map (fun L => j.getD key .null :: L)
      else .error ()

/-- `load_existing_data_reverse` (scrapper.py lines 249-255): reads all
lines in reverse, `json.loads` each (no blank-line filter, no
`try`/`except`), and indexes `data[key]` (a `KeyError` when absent). -/
def load_existing_data_reverse (lines : List (String × Option Json))
    (key : String) : Except Unit (List Json) :=
  loadReverseGo key lines.reverse

/-! ### Helper lemmas -/


theorem setFields_lookup (fs : List (String × Json)) (k : String) (v : Json) :
    (setFields fs k v).lookup k = some v := by
  induction fs with
  | nil => simp [setFields]
  | cons p rest ih =>
    obtain ⟨k', v'⟩ := p
    by_cases h : k' = k
    · simp [setFields, h]
    · have hb : (k == k') = false := beq_eq_false_iff_ne.mpr (Ne.symm h)
      simp [setFields, h, List.lookup, hb, ih]

theorem getD_setKey (fs : List (String × Json)) (k : String) (v d : Json) :
    ((Json.obj fs).setKey k v).getD k d = v := by
  simp [Json.setKey, Json.getD, Json.lookup, setFields_lookup]

theorem hasKey_setKey (fs : List (String × Json)) (k : String) (v : Json) :
    ((Json.obj fs).setKey k v).hasKey k = true := by
  simp [Json.setKey, Json.hasKey, Json.lookup, setFields_lookup]

theorem isDict_setKey (j : Json) (k : String) (v : Json) (h : j.isDict = true) :
    (j.setKey k v).isDict = true := by
  cases j <;> simp_all [Json.isDict, Json.setKey]

theorem enforce_schema_isDict (j c : Json) (h : enforce_schema j = .ok c) :
    c.isDict = true := by
  by_cases h0 : j.isDict
  case neg =>
    simp [enforce_schema, h0] at h
    subst h; rfl
  case pos =>
    rw [enforce_schema] at h
    simp only [h0, Bool.not_true, Bool.false_eq_true, if_false] at h
    cases hD1 : (j.getD "descriptores" (Json.obj [])).isDict with
    | false => simp [hD1] at h; subst h; rfl
    | true =>
      simp only [hD1, Bool.not_true, Bool.false_eq_true, if_false] at h
      cases hD2 : (j.getD "descriptores" (Json.obj [])).getD "descriptor" (Json.arr []) <;>
        simp only [hD2] at h <;>
        try (simp at h; subst h; rfl)
      rename_i ds
      cases hall : ds.all Json.isDict with
      | false => simp [hall] at h; subst h; rfl
      | true =>
        simp only [hall, Bool.not_true, Bool.false_eq_true, if_false] at h
        cases hfix : fixDescriptors ds with
        | error e => simp [hfix] at h
        | ok o =>
          cases o with
          | none => simp [hfix] at h; subst h; rfl
          | some ds' =>
            simp only [hfix] at h
            repeat' split at h
            all_goals simp only [Except.ok.injEq] at h
            all_goals subst h
            all_goals first
              | rfl
              | exact isDict_setKey _ _ _ h0
              | exact h0

/-- Every pair the collection loop appends carries a guid outside the
startup known-set, a record that passes `validate_data`, and a `guid`
field equal to the trailing segment of its source URL. -/
theorem collect_records_mem (update : Bool) (fetch : String → FetchOut)
    (existing : List String) (urls : List String) (u : String) (c : Json)
    (h : (u, c) ∈ collect_records update fetch existing urls) :
    lastSeg u ∉ existing ∧ validate_data c = true ∧
      c.getD "guid" .null = .str (lastSeg u) := by
  induction urls with
  | nil => simp [collect_records] at h
  | cons url rest ih =>
    rw [collect_records] at h
    split at h
    · split at h
      · simp at h
      · exact ih h
    · rename_i hmem
      split at h
      · rename_i raw hfetch
        split at h
        · simp at h
        · rename_i c0 henf
          dsimp only at h
          split at h
          · rename_i hguard
            rcases List.mem_cons.mp h with heq | htail
            · obtain ⟨hu, hc⟩ := Prod.mk.injEq .. ▸ heq
              subst hu
              have hdict : c0.isDict = true := enforce_schema_isDict _ _ henf
              obtain ⟨fs, hfs⟩ : ∃ fs, c0 = Json.obj fs := by
                cases c0 <;> simp_all [Json.isDict]
              subst hfs
              subst hc
              exact ⟨hmem, (Bool.and_eq_true ..).mp hguard |>.2, getD_setKey ..⟩
            · exact ih htail
          · exact ih h
      · exact ih h
      · simp [collect_records] at h

/-- The source URLs of appended records form a sublist of the processed
URL list. -/
theorem collect_records_fst_sublist (update : Bool) (fetch : String → FetchOut)
    (existing : List String) (urls : List String) :
    ((collect_records update fetch existing urls).map Prod.fst).Sublist urls := by
  induction urls with
  | nil => simp [collect_records]
  | cons url rest ih =>
    rw [collect_records]
    split
    · split
      · simp
      · exact ih.cons url
    · split
      · split
        · simp
        · dsimp only
          split
          · simpa using ih
          · exact ih.cons url
      · exact ih.cons url
      · simp

/-- Whenever the `wait` loop acquires a slot, the recorded window is
within the (possibly grown) capacity, and the capacity never shrank. -/
theorem acquire_some (now period : ℚ) (calls : Nat) :
    ∀ (ts : List ℚ) (sr : Nat) (ts' : List ℚ) (sr' calls' : Nat),
      acquire now period calls ts sr = some (ts', sr', calls') →
      ts'.length ≤ calls' ∧ calls ≤ calls' := by
  intro ts
  induction ts with
  | nil =>
    intro sr ts' sr' calls' h
    rw [acquire] at h
    split at h
    · rename_i hlen
      dsimp only at h
      split at h <;>
        (simp only [Option.some.injEq, Prod.mk.injEq] at h
         obtain ⟨rfl, rfl, rfl⟩ := h
         constructor <;> simp_all <;> omega)
    · simp at h
  | cons t rest ih =>
    intro sr ts' sr' calls' h
    rw [acquire] at h
    split at h
    · rename_i hlen
      dsimp only at h
      split at h <;>
        (simp only [Option.some.injEq, Prod.mk.injEq] at h
         obtain ⟨rfl, rfl, rfl⟩ := h
         constructor <;> simp_all <;> omega)
    · split at h
      · exact ih _ _ _ _ h
      · simp at h

/-- A terminating `RateLimiter.wait` leaves the window within capacity,
never shrinks capacity, keeps `period` and `backoff_factor`, and applies
the adaptive success bookkeeping. -/
theorem wait_some (now : ℚ) (s s' : RLState) (h : s.wait now = some s') :
    s'.timestamps.length ≤ s'.calls ∧ s.calls ≤ s'.calls ∧
      s'.period = s.period ∧ s'.backoff_factor = s.backoff_factor ∧
      s'.adaptive = s.adaptive.success := by
  unfold RLState.wait at h
  split at h
  · simp at h
  · rename_i ts' sr' calls' hacq
    cases h
    have hq := acquire_some now s.period s.calls s.timestamps s.successful_requests _ _ _ hacq
    exact ⟨hq.1, hq.2, rfl, rfl, rfl⟩

/-- `reset_on_error` keeps capacity at least 1, doubles the backoff
factor, and applies the adaptive failure bookkeeping. -/
theorem reset_on_error_spec (s : RLState) :
    1 ≤ s.reset_on_error.calls ∧
      s.reset_on_error.backoff_factor = s.backoff_factor * 2 ∧
      s.reset_on_error.adaptive = s.adaptive.failure ∧
      s.reset_on_error.period = s.period := by
  unfold RLState.reset_on_error
  dsimp only
  split <;> exact ⟨Nat.le_max_left .., rfl, rfl, rfl⟩

/-- Invariant on the adaptive limiter: nonnegative delay bounded by the
ceiling, a backoff factor at least 1, and a ceiling at least the
`0.1` floor. -/
def AdaptiveInv (a : AdaptiveState) : Prop :=
  0 ≤ a.delay ∧ a.delay ≤ a.max_delay ∧ 1 ≤ a.backoff_factor ∧
    1/10 ≤ a.max_delay

theorem adaptiveInv_success (a : AdaptiveState) (h : AdaptiveInv a) :
    AdaptiveInv a.success := by
  obtain ⟨h0, h1, h2, h3⟩ := h
  unfold AdaptiveState.success
  dsimp only
  split <;> refine ⟨?_, ?_, h2, h3⟩ <;> simp only []
  · positivity
  · exact max_le ((div_le_self h0 h2).trans h1) h3
  · exact h0
  · exact h1

theorem adaptiveInv_failure (a : AdaptiveState) (h : AdaptiveInv a) :
    AdaptiveInv a.failure := by
  obtain ⟨h0, h1, h2, h3⟩ := h
  refine ⟨?_, min_le_right .., h2, h3⟩
  have : (0:ℚ) ≤ a.delay * a.backoff_factor := by positivity
  simp only [AdaptiveState.failure]
  exact le_min this (by linarith)

/-- Combined reachability invariant for the rate limiter: capacity at
least 1 and the adaptive invariant. -/
def RLInv (s : RLState) : Prop :=
  1 ≤ s.calls ∧ AdaptiveInv s.adaptive

/-- `RLInv` is preserved by every sequence of `wait`/`reset_on_error`
interactions. -/
theorem runOps_inv (ops : List RLOp) :
    ∀ s s', RLInv s → runOps s ops = some s' → RLInv s' := by
  induction ops with
  | nil => intro s s' h hr; cases hr; exact h
  | cons op rest ih =>
    intro s s' h hr
    cases op with
    | wait now =>
      rw [runOps] at hr
      split at hr
      · simp at hr
      · rename_i s1 hw
        obtain ⟨_, hc, _, _, ha⟩ := wait_some now s s1 hw
        exact ih s1 s' ⟨h.1.trans hc, ha ▸ adaptiveInv_success _ h.2⟩ hr
    | reset =>
      rw [runOps] at hr
      obtain ⟨hc, _, ha, _⟩ := reset_on_error_spec s
      exact ih _ s' ⟨hc, ha ▸ adaptiveInv_failure _ h.2⟩ hr

/-- Under `wait`-only interaction sequences the recorded window stays
within capacity. -/
theorem runOps_waits_window (ops : List RLOp)
    (hw : ∀ op ∈ ops, ∃ now, op = RLOp.wait now) :
    ∀ s s', s.timestamps.length ≤ s.calls → runOps s ops = some s' →
      s'.timestamps.length ≤ s'.calls := by
  induction ops with
  | nil => intro s s' hlen h; cases h; exact hlen
  | cons op rest ih =>
    intro s s' hlen h
    obtain ⟨now, rfl⟩ := hw op (List.mem_cons_self op rest)
    rw [runOps] at h
    split at h
    · simp at h
    · rename_i s1 hw1
      exact ih (fun o ho => hw o (List.mem_cons_of_mem _ ho)) s1 s'
        (wait_some now s s1 hw1).1 h

/-- After `n` failure reports the window backoff factor has doubled `n`
times: it grows without bound. -/
theorem resetIter_backoff (n : Nat) :
    ∀ s : RLState, (resetIter n s).backoff_factor = s.backoff_factor * 2 ^ n := by
  induction n with
  | zero => intro s; simp [resetIter]
  | succ m ih =>
    intro s
    rw [resetIter, ih, (reset_on_error_spec s).2.1]
    ring

/-- `get_urls` never raises, so its `@retry(max_retries=3)` wrapper always
returns after the first attempt: no retry is ever consumed. -/
theorem retryGetUrls_first (resps : Nat → GResp) (maxR : Nat) :
    retryGetUrls resps (maxR + 1) =
      ((get_urls (resps 0)).1, .value (get_urls (resps 0)).2) := by
  rw [retryGetUrls, retryRun, retryFrom]

/-- A year whose first page returns `items` and whose later offsets hit the
HTTP-500 sentinel yields exactly the unknown identifiers of that first
page. -/
theorem backfill_year_one_page (resps : Nat → GResp) (amount : Nat)
    (existing : List String) (fuel : Nat) (items : List (Option (String × String)))
    (hamount : 0 < amount) (h0 : resps 0 = .ok items)
    (hrest : ∀ o, 0 < o → resps o = .endOfResults) :
    backfill_year resps amount existing (fuel + 2) 0
      = (parseItems items).filter (fun x => decide (x ∉ existing)) := by
  rw [backfill_year, h0]
  cases hp : parseItems items with
  | nil => simp [get_urls, hp]
  | cons u us =>
    simp only [get_urls, hp]
    rw [backfill_year, hrest (0 + amount) (by omega)]
    simp [get_urls, hp]

/-- The update-mode loop on pages `ps` (all holding something unknown)
followed by a page `p` with nothing unknown collects exactly the unknown
identifiers of `ps` and never looks past `p`. -/
theorem update_mode_collect_spec (existing : List String) (ps : List (List String))
    (p : List String) (rest : List (Option (List String)))
    (hps : ∀ q ∈ ps, q.filter (fun u => decide (u ∉ existing)) ≠ [])
    (hp : p.filter (fun u => decide (u ∉ existing)) = []) :
    update_mode_collect existing (ps.map some ++ some p :: rest)
      = .ok ((ps.map (fun q => q.filter (fun u => decide (u ∉ existing)))).flatten) := by
  induction ps with
  | nil =>
    rw [List.map_nil, List.nil_append, update_mode_collect]
    rw [hp]
    rfl
  | cons q qs ih =>
    have hq := hps q (List.mem_cons_self q qs)
    rw [List.map_cons, List.cons_append, update_mode_collect]
    rw [if_neg (by simpa [List.isEmpty_iff] using hq)]
    rw [ih (fun r hr => hps r (List.mem_cons_of_mem _ hr))]
    rfl

/-- Membership in the collected update-mode identifiers: exactly the
identifiers of the pre-stop pages that are not already known. -/
theorem mem_flatten_filter (existing : List String) (ps : List (List String)) (u : String) :
    u ∈ (ps.map (fun q => q.filter (fun x => decide (x ∉ existing)))).flatten ↔
      (u ∉ existing ∧ ∃ q ∈ ps, u ∈ q) := by
  simp only [List.mem_flatten, List.mem_map]
  constructor
  · rintro ⟨l, ⟨q, hq, rfl⟩, hu⟩
    rcases List.mem_filter.mp hu with ⟨hmem, hdec⟩
    exact ⟨by simpa using hdec, q, hq, hmem⟩
  · rintro ⟨hnot, q, hq, hu⟩
    exact ⟨_, ⟨q, hq, rfl⟩, List.mem_filter.mpr ⟨hu, by simpa using hnot⟩⟩

/-! ### Claim theorems -/

/-- C1, counterexample.  The collection loop never updates the in-memory
known-guid set while it appends, so with an empty dataset log and the URL
list `["a/G", "b/G"]` — two distinct URLs sharing the trailing segment
`G` — one run appends two records whose `guid` is `G`: the identifier `G`
maps to two persisted records. -/
theorem c1_counterexample :
    (collect_records false (fun _ => .ok (.obj [])) [] ["a/G", "b/G"]).map
        (fun p => p.2.getD "guid" .null) = [.str "G", .str "G"] ∧
      ((collect_records false (fun _ => .ok (.obj [])) [] ["a/G", "b/G"]).map
        (fun p => lastSeg p.1)) = ["G", "G"] := by
  exact ⟨rfl, rfl⟩

/-- C1, amended.  Identifiers already in the dataset log at the start of a
run are never appended (in non-update mode they are skipped, in update
mode the loop stops at the first one); and provided the trailing segments
of the URLs to scrape are pairwise distinct, the appended records carry
pairwise distinct identifiers, so each identifier maps to at most one
newly persisted record — without that proviso a run can append
duplicates, as the counterexample shows. -/
theorem c1_no_duplicate_for_known (update : Bool) (fetch : String → FetchOut)
    (existing : List String) (urls : List String) :
    (∀ u c, (u, c) ∈ collect_records update fetch existing urls →
       lastSeg u ∉ existing) ∧
    (∀ url rest, lastSeg url ∈ existing →
       collect_records false fetch existing (url :: rest)
         = collect_records false fetch existing rest) ∧
    (∀ url rest, lastSeg url ∈ existing →
       collect_records true fetch existing (url :: rest) = []) ∧
    ((urls.map lastSeg).Nodup →
       ((collect_records update fetch existing urls).map
         (fun p => lastSeg p.1)).Nodup) := by
  refine ⟨?_, ?_, ?_, ?_⟩
  · intro u c h
    exact (collect_records_mem update fetch existing urls u c h).1
  · intro url rest hmem
    rw [collect_records]
    simp [hmem]
  · intro url rest hmem
    rw [collect_records]
    simp [hmem]
  · intro hnd
    have hsub := (collect_records_fst_sublist update fetch existing urls).map lastSeg
    rw [List.map_map] at hsub
    exact hnd.sublist hsub

/-- C1, witness for the amended theorem at concrete inputs: with `G`
already persisted, an update-mode run stops before appending anything,
and a run over URLs with distinct trailing segments appends
distinct-guid records. -/
theorem c1_witness :
    collect_records true (fun _ => .ok (.obj [])) ["G"] ["a/G", "b/H"] = [] ∧
      ((collect_records false (fun _ => .ok (.obj [])) [] ["a/G", "b/H"]).map
        (fun p => lastSeg p.1)).Nodup := by
  constructor
  · exact (c1_no_duplicate_for_known true (fun _ => .ok (.obj [])) ["G"]
      ["a/G", "b/H"]).2.2.1 "a/G" ["b/H"] (by decide)
  · exact (c1_no_duplicate_for_known false (fun _ => .ok (.obj [])) []
      ["a/G", "b/H"]).2.2.2 (by decide)

/-- The C2 failing input: a record whose only descriptor has dict-valued
`elegido` and `preferido` and a dict-valued `sinonimos` that lacks the
`termino` key. -/
def c2_failing_input : Json :=
  .obj [("descriptores", .obj [("descriptor", .arr [.obj
    [("elegido", .obj []), ("preferido", .obj []),
     ("sinonimos", .obj [("x", .null)])]])])]

/-- C2.  `enforce_schema` is *not* total: on `c2_failing_input` the access
`d['sinonimos']['termino']` raises `KeyError` (the `.error` outcome); and
on the well-typed input `{}` it returns `{}` unchanged, which has no
`descriptores` key at all — the advertised minimal shape does not hold
of the result. -/
theorem c2_enforce_schema_not_total :
    enforce_schema c2_failing_input = .error () ∧
      enforce_schema (.obj []) = .ok (.obj []) ∧
      (Json.obj []).hasKey "descriptores" = false := by
  exact ⟨rfl, rfl, rfl⟩

/-- C10.  Every record the collection loop appends passes `validate_data`
and carries a `guid` field equal to the trailing path segment of the URL
it was fetched from. -/
theorem c10_guid_matches_url (update : Bool) (fetch : String → FetchOut)
    (existing : List String) (urls : List String) (u : String) (c : Json)
    (h : (u, c) ∈ collect_records update fetch existing urls) :
    validate_data c = true ∧ c.getD "guid" .null = .str (lastSeg u) :=
  ⟨(collect_records_mem update fetch existing urls u c h).2.1,
   (collect_records_mem update fetch existing urls u c h).2.2⟩

/-- C10, witness: the single record appended for the URL `"a/G"` validates
and carries guid `G`. -/
theorem c10_witness :
    validate_data (.obj [("guid", .str "G")]) = true ∧
      (Json.obj [("guid", .str "G")]).getD "guid" .null = .str (lastSeg "a/G") :=
  c10_guid_matches_url false (fun _ => .ok (.obj [])) [] ["a/G"] "a/G"
    (.obj [("guid", .str "G")])
    (by
      have h : collect_records false (fun _ => FetchOut.ok (.obj [])) [] ["a/G"]
          = [("a/G", Json.obj [("guid", Json.str "G")])] := rfl
      rw [h]
      exact List.mem_singleton_self _)

/-- The C9 failing log: a well-formed first line, a malformed middle line,
a well-formed last line (first components are the raw line texts, second
components the `json.loads` outcomes). -/
def c9_lines : List (String × Option Json) :=
  [("\x7b\"guid\": \"A\"\x7d", some (.obj [("guid", .str "A")])),
   ("not json", none),
   ("\x7b\"guid\": \"B\"\x7d", some (.obj [("guid", .str "B")]))]

/-- C9.  A malformed line is *not* skipped: the forward loader catches the
decode error outside its set comprehension and returns the empty set,
losing both well-formed entries (its warning message notwithstanding),
and the reverse loader, which has no handler at all, raises.  Dropping
the malformed line makes the forward loader return both entries. -/
theorem c9_malformed_line_not_skipped :
    load_existing_data c9_lines "guid" = [] ∧
      load_existing_data_reverse c9_lines "guid" = .error () ∧
      load_existing_data [c9_lines[0]!, c9_lines[2]!] "guid"
        = [.str "A", .str "B"] := by
  exact ⟨rfl, rfl, rfl⟩

/-- C3.  HTTP 500 on the discovery endpoint is the end-of-results
sentinel: `get_urls` returns `[]` at once with no failure report to the
rate controller; its retry wrapper always finishes on the first attempt
(`get_urls` never raises, so no retry is consumed); and a full-backfill
year whose first page yields items and whose next offset answers 500
contributes exactly the unknown identifiers of that first page, after
which the outer loop continues with the following years. -/
theorem c3_http500_sentinel :
    (get_urls .endOfResults = ([.success], some []) ∧
      (get_urls .endOfResults).1.count .failure = 0) ∧
    (∀ (resps : Nat → GResp) (maxR : Nat),
      retryGetUrls resps (maxR + 1)
        = ((get_urls (resps 0)).1, .value (get_urls (resps 0)).2)) ∧
    (∀ (resps : Nat → GResp) (amount : Nat) (existing : List String)
       (fuel : Nat) (items : List (Option (String × String))),
      0 < amount → resps 0 = .ok items →
      (∀ o, 0 < o → resps o = .endOfResults) →
      backfill_year resps amount existing (fuel + 2) 0
        = (parseItems items).filter (fun x => decide (x ∉ existing))) ∧
    (∀ (rs : Nat → Nat → GResp) (amount : Nat) (existing : List String)
       (fuel y : Nat) (ys : List Nat),
      backfill_years rs amount existing fuel (y :: ys)
        = backfill_year (rs y) amount existing fuel 0
          ++ backfill_years rs amount existing fuel ys) := by
  refine ⟨⟨rfl, rfl⟩, retryGetUrls_first, ?_, fun rs amount existing fuel y ys => rfl⟩
  intro resps amount existing fuel items h1 h2 h3
  exact backfill_year_one_page resps amount existing fuel items h1 h2 h3

/-- C3, witness: a year answering three identifiers at offset 0 and
HTTP 500 at offset 1000 yields exactly those three identifiers. -/
theorem c3_witness :
    backfill_year (fun o => if o = 0
        then .ok [some ("a", "1"), some ("b", "2"), some ("c", "3")]
        else .endOfResults) 1000 [] 3 0 = ["a/1", "b/2", "c/3"] := by
  have h := c3_http500_sentinel.2.2.1 (fun o => if o = 0
      then GResp.ok [some ("a", "1"), some ("b", "2"), some ("c", "3")]
      else .endOfResults) 1000 [] 1
    [some ("a", "1"), some ("b", "2"), some ("c", "3")]
    (by omega) rfl (fun o ho => by simp [Nat.pos_iff_ne_zero.mp ho])
  rw [h]
  rfl

/-- C4, counterexample.  A single 403 attempt reports *two* failures to
the rate controller — once on the status branch (line 153) and once in
the `ClientError` handler that catches the raise (line 166) — so in the
403·403·403·200 scenario `reset_on_error` is invoked six times, not the
three the claim states. -/
theorem c4_counterexample :
    (scrapeStep "x/G" SResp.http403).1.count .failure = 2 ∧
      (retryScrape "x/G" (fun i => if i < 3 then .http403 else .ok (some (.obj [])))
          10).1.count .failure = 6 := by
  exact ⟨rfl, rfl⟩

/-- C4, amended.  Per-attempt failure accounting for the document fetch:
a 403 attempt reports exactly *two* failures to the rate controller
(status branch, then the `ClientError` handler catching its own raise)
before the retry; every other attempt that does not return a record
reports exactly one failure; a returning attempt reports none.  In the
concrete 403·403·403·200 scenario the retry wrapper returns the
normalized record (truthy and valid, hence persisted by `main`) after
exactly six failure reports, all preceding the success bookkeeping of
the final, successful attempt. -/
theorem c4_amended_failure_reports :
    (∀ (url : String) (r : SResp),
      (scrapeStep url r).1.count .failure
        = (match r with
           | .http403 => 2
           | _ =>
             match (scrapeStep url r).2 with
             | .val (some _) => 0
             | _ => 1)) ∧
    retryScrape "x/G" (fun i => if i < 3 then .http403 else .ok (some (.obj []))) 10
      = ([.success, .failure, .failure, .success, .failure, .failure,
          .success, .failure, .failure, .success],
         .value (some (.obj [("guid", .str "G")]))) ∧
    validate_data (.obj [("guid", .str "G")]) = true ∧
    (Json.obj [("guid", .str "G")]).isTruthy = true := by
  refine ⟨?_, rfl, rfl, rfl⟩
  intro url r
  cases r with
  | ok raw =>
    cases raw with
    | none => rfl
    | some j =>
      cases h : enforce_schema j with
      | error e => simp [scrapeStep, h]
      | ok c => simp [scrapeStep, h]
  | http403 => rfl
  | httpError code => rfl
  | netError => rfl
  | decodeError => rfl

/-- C5.  Incremental-update discovery stops the whole enumeration at the
first page contributing no unknown identifier, and each earlier page
contributes exactly its identifiers outside the known-URL set. -/
theorem c5_update_mode_stops (existing : List String) (ps : List (List String))
    (p : List String) (rest : List (Option (List String)))
    (hps : ∀ q ∈ ps, q.filter (fun u => decide (u ∉ existing)) ≠ [])
    (hp : p.filter (fun u => decide (u ∉ existing)) = []) :
    update_mode_collect existing (ps.map some ++ some p :: rest)
        = .ok ((ps.map (fun q => q.filter (fun u => decide (u ∉ existing)))).flatten) ∧
      ∀ u, u ∈ (ps.map (fun q => q.filter (fun u => decide (u ∉ existing)))).flatten ↔
        (u ∉ existing ∧ ∃ q ∈ ps, u ∈ q) :=
  ⟨update_mode_collect_spec existing ps p rest hps hp,
   fun u => mem_flatten_filter existing ps u⟩

/-- C5, witness: with `a/1` known, the run keeps `b/2` and `c/3` from the
first page, stops at the second page (whose only identifier is known),
and never reads the third. -/
theorem c5_witness :
    update_mode_collect ["a/1"] [some ["b/2", "c/3"], some ["a/1"], some ["z/9"]]
      = .ok ["b/2", "c/3"] := by
  have h1 := (c5_update_mode_stops ["a/1"] [["b/2", "c/3"]] ["a/1"] [some ["z/9"]]
    (by decide) (by decide)).1
  simp only [List.map_cons, List.map_nil, List.cons_append, List.nil_append,
    List.flatten_cons, List.flatten_nil, List.append_nil] at h1
  rw [h1]
  rfl

/-- C6, counterexample.  A discovery page failing with an error outcome
(`get_urls` returns `None`, distinct from the empty page `some []`) ends
the year exactly like an empty page, and the run does *not* abort: with
year 1 erroring at its first page, the run still advances to year 2 and
collects its identifier. -/
theorem c6_counterexample :
    backfill_years (fun y o => if y = 1 then .httpError 503
        else if o = 0 then .ok [some ("d", "4")] else .endOfResults)
      1000 [] 5 [1, 2] = ["d/4"] ∧
      (get_urls (.httpError 503)).2 = none ∧
      (get_urls (.httpError 503)).2 ≠ some [] := by
  exact ⟨rfl, rfl, by decide⟩

/-- C6, amended.  In full-backfill discovery an error outcome on a page
fetch (a `None` return of `get_urls` — whose internal handlers also mean
the retry wrapper never retries it) is interpreted exactly as exhaustion
of the year: the year loop breaks at once and the enumeration silently
continues with the next year; the run does not abort. -/
theorem c6_error_page_ends_year (resps : Nat → GResp) (amount : Nat)
    (existing : List String) (fuel offset : Nat)
    (herr : (get_urls (resps offset)).2 = none) :
    backfill_year resps amount existing (fuel + 1) offset = [] ∧
      ∀ (rs : Nat → Nat → GResp) (y : Nat) (ys : List Nat),
        backfill_years rs amount existing (fuel + 1) (y :: ys)
          = backfill_year (rs y) amount existing (fuel + 1) 0
            ++ backfill_years rs amount existing (fuel + 1) ys := by
  constructor
  · rw [backfill_year, herr]
  · intro rs y ys
    rfl

/-- C6, witness for the amended theorem: an HTTP-503 page ends its year
with nothing collected while the outer loop decomposition still holds. -/
theorem c6_witness :
    backfill_year (fun _ => .httpError 503) 1000 [] 5 0 = [] ∧
      ∀ (rs : Nat → Nat → GResp) (y : Nat) (ys : List Nat),
        backfill_years rs 1000 [] 5 (y :: ys)
          = backfill_year (rs y) 1000 [] 5 0 ++ backfill_years rs 1000 [] 5 ys :=
  c6_error_page_ends_year (fun _ => .httpError 503) 1000 [] 4 0 rfl

/-- C7, counterexample.  Two granted `wait()` calls at instant 0 with
capacity 2 followed by one `reset_on_error()` leave both timestamps
inside the trailing period while the capacity has dropped to 1: the
in-window count exceeds `calls`, so the window invariant does not
survive failure reports. -/
theorem c7_counterexample :
    ((runOps (RLState.init 2 1) [.wait 0, .wait 0, .reset]).map
      (fun s => decide (inWindowCount 0 s ≤ s.calls))) = some false := by
  norm_num [runOps, RLState.wait, acquire, RLState.init, RLState.reset_on_error,
    AdaptiveState.success, AdaptiveState.failure, AdaptiveState.initial, inWindowCount]

/-- C7, amended.  Under interaction sequences consisting only of `wait()`
calls the invariant does hold: starting from a window within capacity,
the number of recorded timestamps in the trailing period never exceeds
`calls` at any reached state; a `reset_on_error` can shrink `calls` below
the window size, as the counterexample shows. -/
theorem c7_window_bound_without_failure_reports (ops : List RLOp)
    (hw : ∀ op ∈ ops, ∃ now, op = RLOp.wait now) (s s' : RLState)
    (hlen : s.timestamps.length ≤ s.calls) (hrun : runOps s ops = some s')
    (now : ℚ) :
    inWindowCount now s' ≤ s'.calls :=
  le_trans (List.length_filter_le _ _) (runOps_waits_window ops hw s s' hlen hrun)

/-- The state reached from `RateLimiter(calls=1, period=1)` by one granted
`wait` at instant 0. -/
def c7_reached : RLState :=
  { RLState.init 1 1 with
      timestamps := [0], successful_requests := 1,
      adaptive := { AdaptiveState.initial with success_streak := 1 } }

/-- C7, witness for the amended theorem: after one `wait` the window of
the just-initialized limiter is within capacity. -/
theorem c7_witness : inWindowCount 0 c7_reached ≤ c7_reached.calls :=
  c7_window_bound_without_failure_reports [RLOp.wait 0]
    (by
      intro op hop
      rw [List.mem_singleton] at hop
      exact ⟨0, hop⟩)
    (RLState.init 1 1) c7_reached (by decide) rfl 0

/-- C8, counterexample.  The window backoff factor doubles on every
failure report with no bound: three `reset_on_error` calls from the
default state multiply it by 8, and the first sleep the backoff branch
of `wait` would then compute (even with zero jitter) already exceeds the
only delay ceiling in the program, the adaptive limiter's
`max_delay = 5.0`. -/
theorem c8_counterexample :
    first_jitter_delay (resetIter 3 (RLState.init 1 1)) 0
        > (RLState.init 1 1).adaptive.max_delay ∧
      (resetIter 3 (RLState.init 1 1)).backoff_factor
        = (RLState.init 1 1).backoff_factor * 8 := by
  constructor <;>
    norm_num [first_jitter_delay, resetIter, RLState.reset_on_error, RLState.init,
      AdaptiveState.failure, AdaptiveState.initial]

/-- C8, amended.  Under every sequence of `wait`/`reset_on_error`
interactions the capacity `calls` never falls below 1 and the *adaptive*
delay stays below its `max_delay` ceiling; but the window backoff factor
is unbounded — after `n` failure reports it has doubled `n` times — so
the sleep delays of the backoff branch have no ceiling. -/
theorem c8_capacity_floor_delay_cap (ops : List RLOp) (s s' : RLState)
    (hinv : RLInv s) (hrun : runOps s ops = some s') :
    (1 ≤ s'.calls ∧ s'.adaptive.delay ≤ s'.adaptive.max_delay) ∧
      ∀ n, (resetIter n s).backoff_factor = s.backoff_factor * 2 ^ n := by
  have h := runOps_inv ops s s' hinv hrun
  exact ⟨⟨h.1, h.2.2.1⟩, fun n => resetIter_backoff n s⟩

/-- C8, witness: one failure report from the freshly initialized limiter
keeps capacity at 1 and the adaptive delay within its ceiling, and two
failure reports quadruple the backoff factor. -/
theorem c8_witness :
    (1 ≤ (RLState.init 1 1).reset_on_error.calls ∧
      (RLState.init 1 1).reset_on_error.adaptive.delay
        ≤ (RLState.init 1 1).reset_on_error.adaptive.max_delay) ∧
      (resetIter 2 (RLState.init 1 1)).backoff_factor
        = (RLState.init 1 1).backoff_factor * 4 := by
  have h := c8_capacity_floor_delay_cap [RLOp.reset] (RLState.init 1 1)
    ((RLState.init 1 1).reset_on_error)
    ⟨by decide, by norm_num [RLState.init, AdaptiveState.initial, AdaptiveInv]⟩ rfl
  refine ⟨h.1, ?_⟩
  have h2 := h.2 2
  norm_num at h2
  exact h2
